import Mathlib

/-!
Shallow embedding of the MCP weather client (`mcp_client.py`, class `MCPClient`).

The Python client talks to a child server process over line-delimited JSON-RPC.
We model the client's mutable fields (`self.process`, `self.session_id`,
`self.stderr_thread`, `self.request_id`) as a `ClientState` record threaded
through every operation, the child process's behaviour as an `Env` oracle that
fixes, for each request id, what the single read of the response line yields,
and Python exceptions as an explicit `PyOut` result that carries the state at
the raise point (Python mutations are not rolled back by an exception).

Instrumentation fields (`trace` of dispatched requests, `stops` counting
`stop_server` invocations, `nextGen` generating fresh process handles) exist
only so that specifications can talk about what was dispatched and how often
teardown ran; `ClientState.obs` projects the program-visible part.
-/

namespace MCP

/-- JSON values, as produced by `json.loads` / consumed by `json.dumps`. -/
inductive Json where
  | null : Json
  | bool : Bool → Json
  | num : Int → Json
  | str : String → Json
  | arr : List Json → Json
  | obj : List (String × Json) → Json
deriving Repr

/-- Python truthiness of a JSON value (`if completion["toolCall"]:`,
`if not self.session_id:`): `None`, `False`, `0`, `""`, `[]`, `{}` are falsy. -/
def Json.isTruthy : Json → Bool
  | .null => false
  | .bool b => b
  | .num n => n != 0
  | .str s => s != ""
  | .arr xs => !xs.isEmpty
  | .obj fs => !fs.isEmpty

/-- Key lookup on a JSON object: models Python's `k in d` / `d[k]` on the
dict-shaped values the client actually probes (on a non-dict the client's
`in` tests would not find the key either in the runs we model). -/
def Json.lookup? : Json → String → Option Json
  | .obj fs, k => fs.lookup k
  | _, _ => none

/-- Python `d.get(k, default)` on the dict-shaped values the client probes. -/
def pyGet (j : Json) (k : String) (d : Json) : Json :=
  match j.lookup? k with
  | some v => v
  | none => d

/-- Python `str(...)` as used inside the client's f-strings.  The client only
ever stringifies the `message` (a string) and `code` (an integer) taken from a
JSON-RPC error object, so only those two renderings matter. -/
def pyStr : Json → String
  | .str s => s
  | .num n => toString n
  | .bool true => "True"
  | .bool false => "False"
  | .null => "None"
  | .arr _ => "<list>"
  | .obj _ => "<dict>"

/-- One JSON-RPC request as built by `send_jsonrpc_request`
(`{"jsonrpc": "2.0", "method": method, "params": params, "id": request_id}`). -/
structure PyRequest where
  jsonrpc : String
  method : String
  params : Json
  id : Nat
deriving Repr

/-- Builds the request envelope `{"jsonrpc": "2.0", ...}` of line 143. -/
def mkReq (method : String) (params : Json) (i : Nat) : PyRequest :=
  { jsonrpc := "2.0", method := method, params := params, id := i }

/-- The client's mutable fields, plus instrumentation.

* `process` — `self.process`: `none` models Python `None`, `some g` a live
  `Popen` handle with generation number `g`.
* `session_id` — `self.session_id` (`none` models Python `None`).
* `stderr_thread` — `self.stderr_thread`.
* `request_id` — `self.request_id`, the id counter (starts at 0, incremented
  before use so ids start at 1).
* `nextGen` — instrumentation: source of fresh process generations.
* `trace` — instrumentation: every JSON-RPC request dispatched so far.
* `stops` — instrumentation: how many times `stop_server` was invoked. -/
structure ClientState where
  process : Option Nat
  session_id : Option Json
  stderr_thread : Option Nat
  request_id : Nat
  nextGen : Nat
  trace : List PyRequest
  stops : Nat
deriving Repr

/-- The program-visible part of the state (everything except the
`stops` invocation counter, which is pure instrumentation). -/
def ClientState.obs (s : ClientState) :
    Option Nat × Option Json × Option Nat × Nat × Nat × List PyRequest :=
  (s.process, s.session_id, s.stderr_thread, s.request_id, s.nextGen, s.trace)

/-- Python's `self.session_id` truthiness test (`if not self.session_id:`). -/
def sessionTruthy (s : ClientState) : Bool :=
  match s.session_id with
  | none => false
  | some j => j.isTruthy

/-- What a single request/response exchange yields, as seen at the client's
single `readline` of the response (the branch points of
`send_jsonrpc_request`, lines 153-211 of the source):
timeout signal, raised I/O error on write/read, process found exited after the
read, empty response line, a line that fails `json.loads`, or a parsed value. -/
inductive ReadOutcome where
  | timeout : ReadOutcome
  | raised : String → ReadOutcome
  | exited : String → ReadOutcome
  | empty : String → ReadOutcome
  | badJson : String → ReadOutcome
  | parsed : Json → ReadOutcome

/-- The environment: whether a spawn succeeds, the diagnostic text a failed
spawn would buffer, and the outcome of the exchange for each request id. -/
structure Env where
  startOk : Bool
  startStderr : String
  outcome : Nat → ReadOutcome

/-- Result of a Python call: a value or a raised exception (its `str(e)`),
each together with the state at that point. -/
inductive PyOut (α : Type) where
  | ok : α → ClientState → PyOut α
  | exc : String → ClientState → PyOut α
deriving Repr

/-- The client state a call ended in, whether it returned or raised. -/
def PyOut.state {α : Type} : PyOut α → ClientState
  | .ok _ s => s
  | .exc _ s => s

/-- Whether a call returned normally. -/
def PyOut.isOk {α : Type} : PyOut α → Bool
  | .ok _ _ => true
  | .exc _ _ => false

/-- Python `try: body except Exception: handler finally: fin` where the
finaliser is a pure state update (as in `stop_server`, whose `finally`
clears the two handles). -/
def tryCatchFinally {α : Type} (body : ClientState → Except String α × ClientState)
    (handler : String → ClientState → Except String α × ClientState)
    (fin : ClientState → ClientState) (s : ClientState) :
    Except String α × ClientState :=
  match body s with
  | (Except.ok a, s1) => (Except.ok a, fin s1)
  | (Except.error e, s1) =>
      match handler e s1 with
      | (r, s2) => (r, fin s2)

/-- The `terminate` / `poll` / `kill` body of `stop_server`'s `try` block;
`termRaises` says whether the OS-level calls raise. -/
def terminate_kill (termRaises : Bool) (s : ClientState) :
    Except String Unit × ClientState :=
  if termRaises then (Except.error "terminate failed", s) else (Except.ok (), s)

/-- `MCPClient.stop_server` (lines 102-118): if a process is tracked,
`try` terminate/kill it, `except Exception` log and swallow, `finally`
set `self.process = None` and `self.stderr_thread = None`; if no process
is tracked, do nothing.  `stops` counts the invocation either way. -/
def stop_server_impl (termRaises : Bool) (s : ClientState) :
    Except String Unit × ClientState :=
  let s0 := { s with stops := s.stops + 1 }
  if s0.process.isSome then
    tryCatchFinally (terminate_kill termRaises)
      (fun _e st => (Except.ok (), st))
      (fun st => { st with process := none, stderr_thread := none }) s0
  else (Except.ok (), s0)

/-- The state transformer of `stop_server` (the OS calls' own success or
failure never changes the resulting client state, see `stop_server_impl`). -/
def stop_server (s : ClientState) : ClientState :=
  (stop_server_impl false s).2

/-- `MCPClient.start_server` (lines 68-100): stop any tracked process first,
spawn a new one, start the stderr drain thread, then check liveness after the
grace period; if the child already exited, raise with the buffered stderr.
Note the failing path leaves `self.process` pointing at the dead child. -/
def start_server (env : Env) (s : ClientState) : PyOut Unit :=
  let s1 := stop_server s
  let s2 := { s1 with process := some s1.nextGen, stderr_thread := some s1.nextGen,
                      nextGen := s1.nextGen + 1 }
  if env.startOk then PyOut.ok () s2
  else PyOut.exc ("服务器启动失败: " ++ env.startStderr) s2

/-- The error dict the client synthesizes:
`{"error": {"message": msg, "code": code}}`. -/
def errObj (msg : String) (code : Int) : Json :=
  Json.obj [("error", Json.obj [("message", Json.str msg), ("code", Json.num code)])]

/-- The state after `request_id = self._get_next_request_id()` and the write of
the request envelope (lines 142-165): the id counter bumped and the dispatched
request recorded. -/
def afterDispatch (method : String) (params : Json) (s : ClientState) : ClientState :=
  { s with request_id := s.request_id + 1,
           trace := s.trace ++ [{ jsonrpc := "2.0", method := method, params := params,
                                  id := s.request_id + 1 }] }

/-- The body of `send_jsonrpc_request` after the process is ensured
(lines 139-211): assign the next id, build and write the request, then branch
on what the exchange yields.  `TimeoutError` and every generic `Exception`
(process exited, empty line, server-reported error) are caught, tear the
process down, and become a returned `-32000` error dict; a `json.JSONDecodeError`
alone is caught by the inner handler and becomes a returned `-32700` error dict
WITHOUT tearing the process down; a clean parsed response is returned as is. -/
def send_core (env : Env) (method : String) (params : Json) (s : ClientState) :
    PyOut Json :=
  match env.outcome (s.request_id + 1) with
  | ReadOutcome.timeout =>
      PyOut.ok (errObj ("请求超时: " ++ "请求超时") (-32000))
        (stop_server (afterDispatch method params s))
  | ReadOutcome.raised m =>
      PyOut.ok (errObj ("发送请求时出错: " ++ m) (-32000))
        (stop_server (afterDispatch method params s))
  | ReadOutcome.exited stderr =>
      PyOut.ok (errObj ("发送请求时出错: " ++ ("服务器已退出: " ++ stderr)) (-32000))
        (stop_server (afterDispatch method params s))
  | ReadOutcome.empty stderr =>
      PyOut.ok (errObj ("发送请求时出错: " ++ ("服务器没有返回响应: " ++ stderr)) (-32000))
        (stop_server (afterDispatch method params s))
  | ReadOutcome.badJson raw =>
      PyOut.ok (errObj ("无法解析响应: " ++ raw) (-32700)) (afterDispatch method params s)
  | ReadOutcome.parsed resp =>
      match resp.lookup? "error" with
      | some e =>
          PyOut.ok (errObj ("发送请求时出错: " ++ ("JSON-RPC错误: "
              ++ pyStr (pyGet e "message" (Json.str "未知错误"))
              ++ " (代码: " ++ pyStr (pyGet e "code" (Json.num (-1))) ++ ")")) (-32000))
            (stop_server (afterDispatch method params s))
      | none => PyOut.ok resp (afterDispatch method params s)

/-- `MCPClient.send_jsonrpc_request` (lines 125-211): `if not self.process:
self.start_server()` (a spawn failure raises past this function, since the
start happens before the `try`), then the exchange of `send_core`. -/
def send_jsonrpc_request (env : Env) (method : String) (params : Json)
    (s : ClientState) : PyOut Json :=
  if s.process.isNone then
    match start_server env s with
    | PyOut.exc m s1 => PyOut.exc m s1
    | PyOut.ok _ s1 => send_core env method params s1
  else send_core env method params s

/-- The error text higher operations extract from a failed response:
`response.get("error", {}).get("message", "未知错误")`. -/
def getRespErrMsg (resp : Json) : String :=
  pyStr (pyGet (pyGet resp "error" (Json.obj [])) "message" (Json.str "未知错误"))

/-- `MCPClient.create_session` (lines 213-230): dispatch `createSession` with
empty params; on `result.sessionId` cache it in `self.session_id` and return
it, otherwise raise with the response's error message. -/
def create_session (env : Env) (s : ClientState) : PyOut Json :=
  match send_jsonrpc_request env "createSession" (Json.obj []) s with
  | PyOut.exc m s1 => PyOut.exc m s1
  | PyOut.ok resp s1 =>
      match (resp.lookup? "result").bind (fun r => r.lookup? "sessionId") with
      | some sid => PyOut.ok sid { s1 with session_id := some sid }
      | none => PyOut.exc ("创建会话失败: " ++ getRespErrMsg resp) s1

/-- The `if not self.session_id: self.create_session()` prelude shared by
`add_message`, `call_tool` and `get_completion` (return value discarded). -/
def ensure_session (env : Env) (s : ClientState) : PyOut Unit :=
  if sessionTruthy s then PyOut.ok () s
  else
    match create_session env s with
    | PyOut.ok _ s1 => PyOut.ok () s1
    | PyOut.exc m s1 => PyOut.exc m s1

/-- The params of an `addMessage` request:
`{"sessionId": self.session_id, "message": {"role": "user", "content": content}}`. -/
def addMessageParams (sid : Option Json) (content : String) : Json :=
  Json.obj [("sessionId", sid.getD Json.null),
    ("message", Json.obj [("role", Json.str "user"), ("content", Json.str content)])]

/-- `MCPClient.add_message` (lines 232-263): ensure a session, dispatch
`addMessage`, extract `result.messageId` or raise. -/
def add_message (env : Env) (content : String) (s : ClientState) : PyOut Json :=
  match ensure_session env s with
  | PyOut.exc m s1 => PyOut.exc m s1
  | PyOut.ok _ s1 =>
      match send_jsonrpc_request env "addMessage" (addMessageParams s1.session_id content) s1 with
      | PyOut.exc m s2 => PyOut.exc m s2
      | PyOut.ok resp s2 =>
          match (resp.lookup? "result").bind (fun r => r.lookup? "messageId") with
          | some mid => PyOut.ok mid s2
          | none => PyOut.exc ("添加消息失败: " ++ getRespErrMsg resp) s2

/-- The params of a `callTool` request:
`{"sessionId": self.session_id, "name": tool_name, "arguments": tool_args}`. -/
def callToolParams (sid : Option Json) (tool_name tool_args : Json) : Json :=
  Json.obj [("sessionId", sid.getD Json.null), ("name", tool_name),
    ("arguments", tool_args)]

/-- `MCPClient.call_tool` (lines 265-295): ensure a session, dispatch
`callTool`, return `result` verbatim or raise. -/
def call_tool (env : Env) (tool_name tool_args : Json) (s : ClientState) : PyOut Json :=
  match ensure_session env s with
  | PyOut.exc m s1 => PyOut.exc m s1
  | PyOut.ok _ s1 =>
      match send_jsonrpc_request env "callTool" (callToolParams s1.session_id tool_name tool_args) s1 with
      | PyOut.exc m s2 => PyOut.exc m s2
      | PyOut.ok resp s2 =>
          match resp.lookup? "result" with
          | some result => PyOut.ok result s2
          | none => PyOut.exc ("调用工具失败: " ++ getRespErrMsg resp) s2

/-- The params of a `getCompletion` request:
`{"sessionId": self.session_id, "messageId": message_id}`. -/
def getCompletionParams (sid : Option Json) (message_id : Json) : Json :=
  Json.obj [("sessionId", sid.getD Json.null), ("messageId", message_id)]

/-- `MCPClient.get_completion` (lines 297-342): ensure a session, dispatch
`getCompletion`, extract `result.completion`; if `completion` has a truthy
`toolCall`, invoke the tool and recurse on the same `message_id`; otherwise
return `completion["content"]`, or `"无内容"` when absent; a response without
`result.completion` raises.  The Python recursion is unbounded; `fuel` bounds
the recursion depth of the model, and a `none` result means the call is still
recursing after `fuel` nested calls (it has neither returned nor raised). -/
def get_completion (env : Env) : Nat → Json → ClientState → Option (PyOut Json)
  | 0, _, _ => none
  | fuel + 1, message_id, s =>
      match ensure_session env s with
      | PyOut.exc m s1 => some (PyOut.exc m s1)
      | PyOut.ok _ s1 =>
          match send_jsonrpc_request env "getCompletion"
              (getCompletionParams s1.session_id message_id) s1 with
          | PyOut.exc m s2 => some (PyOut.exc m s2)
          | PyOut.ok resp s2 =>
              match (resp.lookup? "result").bind (fun r => r.lookup? "completion") with
              | some completion =>
                  match completion.lookup? "toolCall" with
                  | some tc =>
                      if tc.isTruthy then
                        match tc.lookup? "name" with
                        | none => some (PyOut.exc "KeyError: name" s2)
                        | some nm =>
                            match tc.lookup? "arguments" with
                            | none => some (PyOut.exc "KeyError: arguments" s2)
                            | some args =>
                                match call_tool env nm args s2 with
                                | PyOut.exc m s3 => some (PyOut.exc m s3)
                                | PyOut.ok _ s3 => get_completion env fuel message_id s3
                      else
                        some (PyOut.ok (pyGet completion "content" (Json.str "无内容")) s2)
                  | none =>
                      some (PyOut.ok (pyGet completion "content" (Json.str "无内容")) s2)
              | none => some (PyOut.exc ("获取完成结果失败: " ++ getRespErrMsg resp) s2)

/-- The `try` block of `query_weather`: `message_id = self.add_message(query)`
then `result = self.get_completion(message_id)`. -/
def query_weather_body (env : Env) (fuel : Nat) (query : String) (s : ClientState) :
    Option (PyOut Json) :=
  match add_message env query s with
  | PyOut.exc m s1 => some (PyOut.exc m s1)
  | PyOut.ok mid s1 => get_completion env fuel mid s1

/-- `MCPClient.query_weather` (lines 344-362): run the body; `except Exception`
turn any raised error into the string `"查询天气时出错: " ++ str(e)`;
`finally` call `stop_server` exactly once; return the result. -/
def query_weather (env : Env) (fuel : Nat) (query : String) (s : ClientState) :
    Option (PyOut Json) :=
  match query_weather_body env fuel query s with
  | none => none
  | some (PyOut.ok r s2) => some (PyOut.ok r (stop_server s2))
  | some (PyOut.exc m s2) =>
      some (PyOut.ok (Json.str ("查询天气时出错: " ++ m)) (stop_server s2))

/-- A sequence of bare dispatches through `send_jsonrpc_request`, threading the
state (used to state the request-id property over any call sequence). -/
def dispatch_list (env : Env) : List (String × Json) → ClientState → ClientState
  | [], s => s
  | (m, p) :: rest, s =>
      dispatch_list env rest (PyOut.state (send_jsonrpc_request env m p s))

/-! ### Extraction helpers used by the specifications -/

/-- The value a call returned (only meaningful on `ok` results). -/
def respOf : PyOut Json → Json
  | PyOut.ok r _ => r
  | PyOut.exc _ _ => Json.null

/-- The integer `code` of a response's `error` object, when present. -/
def errCodeInt (resp : Json) : Option Int :=
  match (resp.lookup? "error").bind (fun e => e.lookup? "code") with
  | some (Json.num n) => some n
  | _ => none

/-- The string `message` of a response's `error` object, when present. -/
def errMsgOf (resp : Json) : Option String :=
  match (resp.lookup? "error").bind (fun e => e.lookup? "message") with
  | some (Json.str m) => some m
  | _ => none

/-- Read outcomes on which `send_jsonrpc_request`'s outer handlers fire:
timeout, write/read failure, unexpected process exit, empty response line
(the failure kinds named by the teardown claim, minus the JSON parse failure
handled by the inner handler). -/
def isHardFailure : ReadOutcome → Bool
  | ReadOutcome.timeout => true
  | ReadOutcome.raised _ => true
  | ReadOutcome.exited _ => true
  | ReadOutcome.empty _ => true
  | _ => false

/-! ### Concrete fixtures: stub servers and start states -/

/-- A client whose server process (generation 0) is already running and whose
session id is cached. -/
def sReady : ClientState :=
  { process := some 0, session_id := some (Json.str "sess"), stderr_thread := some 0,
    request_id := 0, nextGen := 1, trace := [], stops := 0 }

/-- A freshly constructed client: no process, no session, id counter at 0. -/
def sFresh : ClientState :=
  { process := none, session_id := none, stderr_thread := none,
    request_id := 0, nextGen := 0, trace := [], stops := 0 }

/-- The tool call the loop stub always issues. -/
def tcStar : Json :=
  Json.obj [("name", Json.str "get_weather"),
            ("arguments", Json.obj [("city", Json.str "北京")])]

/-- A completion that always carries `tcStar`. -/
def compStar : Json := Json.obj [("toolCall", tcStar)]

/-- A completion response that always carries a tool call; it also carries a
`result` key, so the same stub answer satisfies the interleaved `callTool`
requests. -/
def respStar : Json :=
  Json.obj [("jsonrpc", Json.str "2.0"), ("id", Json.num 1),
    ("result", Json.obj [("completion", compStar)])]

/-- The stub server that answers every request with a completion carrying a
tool call (and a `result` for the interleaved `callTool` dispatches). -/
def envLoop : Env :=
  { startOk := true, startStderr := "", outcome := fun _ => ReadOutcome.parsed respStar }

/-- A stub whose every response line fails JSON parsing. -/
def envBad : Env :=
  { startOk := true, startStderr := "", outcome := fun _ => ReadOutcome.badJson "oops" }

/-- A well-formed JSON-RPC error response with code 42 and message `boom`. -/
def respErr42 : Json :=
  Json.obj [("jsonrpc", Json.str "2.0"), ("id", Json.num 1),
    ("error", Json.obj [("code", Json.num 42), ("message", Json.str "boom")])]

/-- A stub server that reports error code 42, message `boom`, on every request. -/
def envErr : Env :=
  { startOk := true, startStderr := "", outcome := fun _ => ReadOutcome.parsed respErr42 }

/-- A `createSession` success response carrying session id `abc`. -/
def sessResp : Json := Json.obj [("result", Json.obj [("sessionId", Json.str "abc")])]

/-- An `addMessage` success response carrying message id `m1`. -/
def msgResp : Json := Json.obj [("result", Json.obj [("messageId", Json.str "m1")])]

/-- A stub answering the first request with `sessResp` and every later one
with `msgResp`. -/
def envC4 : Env :=
  { startOk := true, startStderr := "",
    outcome := fun n => if n == 1 then ReadOutcome.parsed sessResp
                        else ReadOutcome.parsed msgResp }

/-! ### Basic lemmas about teardown and dispatch -/

theorem stop_server_impl_snd (b : Bool) (s : ClientState) :
    (stop_server_impl b s).2 = stop_server s := by
  cases hp : s.process <;>
    cases b <;>
      simp [stop_server, stop_server_impl, tryCatchFinally, terminate_kill, hp]

theorem stop_server_eq (s : ClientState) :
    stop_server s
      = if s.process.isSome then
          { s with process := none, stderr_thread := none, stops := s.stops + 1 }
        else { s with stops := s.stops + 1 } := by
  cases hp : s.process <;>
    simp [stop_server, stop_server_impl, tryCatchFinally, terminate_kill, hp]

@[simp] theorem stop_server_process (s : ClientState) :
    (stop_server s).process = none := by
  rw [stop_server_eq]; cases hp : s.process <;> simp [hp]

@[simp] theorem stop_server_session (s : ClientState) :
    (stop_server s).session_id = s.session_id := by
  rw [stop_server_eq]; cases s.process.isSome <;> simp

@[simp] theorem stop_server_request_id (s : ClientState) :
    (stop_server s).request_id = s.request_id := by
  rw [stop_server_eq]; cases s.process.isSome <;> simp

@[simp] theorem stop_server_trace (s : ClientState) :
    (stop_server s).trace = s.trace := by
  rw [stop_server_eq]; cases s.process.isSome <;> simp

@[simp] theorem stop_server_nextGen (s : ClientState) :
    (stop_server s).nextGen = s.nextGen := by
  rw [stop_server_eq]; cases s.process.isSome <;> simp

@[simp] theorem stop_server_stops (s : ClientState) :
    (stop_server s).stops = s.stops + 1 := by
  rw [stop_server_eq]; cases s.process.isSome <;> simp

@[simp] theorem sessionTruthy_stop (s : ClientState) :
    sessionTruthy (stop_server s) = sessionTruthy s := by
  simp [sessionTruthy]

theorem send_on_running (env : Env) (m : String) (p : Json) (s : ClientState)
    (g : Nat) (h : s.process = some g) :
    send_jsonrpc_request env m p s = send_core env m p s := by
  simp [send_jsonrpc_request, h]

@[simp] theorem afterDispatch_process (m : String) (p : Json) (s : ClientState) :
    (afterDispatch m p s).process = s.process := rfl

@[simp] theorem afterDispatch_session (m : String) (p : Json) (s : ClientState) :
    (afterDispatch m p s).session_id = s.session_id := rfl

@[simp] theorem afterDispatch_request_id (m : String) (p : Json) (s : ClientState) :
    (afterDispatch m p s).request_id = s.request_id + 1 := rfl

@[simp] theorem afterDispatch_trace (m : String) (p : Json) (s : ClientState) :
    (afterDispatch m p s).trace
      = s.trace ++ [{ jsonrpc := "2.0", method := m, params := p,
                      id := s.request_id + 1 }] := rfl

@[simp] theorem sessionTruthy_afterDispatch (m : String) (p : Json) (s : ClientState) :
    sessionTruthy (afterDispatch m p s) = sessionTruthy s := by
  simp [sessionTruthy]

/-- `send_core` never raises: every branch returns a value. -/
theorem send_core_isOk (env : Env) (m : String) (p : Json) (s : ClientState) :
    ∃ resp s2, send_core env m p s = PyOut.ok resp s2 := by
  unfold send_core
  repeat' split
  all_goals exact ⟨_, _, rfl⟩

/-- Whatever the exchange yields, one dispatch bumps the id counter once and
records exactly one request; the session cache is untouched. -/
theorem send_core_state (env : Env) (m : String) (p : Json) (s : ClientState) :
    (PyOut.state (send_core env m p s)).request_id = s.request_id + 1
    ∧ (PyOut.state (send_core env m p s)).trace
        = s.trace ++ [{ jsonrpc := "2.0", method := m, params := p,
                        id := s.request_id + 1 }]
    ∧ (PyOut.state (send_core env m p s)).session_id = s.session_id := by
  unfold send_core
  repeat' split
  all_goals simp [PyOut.state]

/-- When spawning succeeds, a dispatch through `send_jsonrpc_request` — whether
or not it had to start a process first — bumps the id counter by one and
records exactly one request carrying that id. -/
theorem send_dispatch (env : Env) (m : String) (p : Json) (s : ClientState)
    (h : env.startOk = true) :
    (PyOut.state (send_jsonrpc_request env m p s)).request_id = s.request_id + 1
    ∧ (PyOut.state (send_jsonrpc_request env m p s)).trace
        = s.trace ++ [{ jsonrpc := "2.0", method := m, params := p,
                        id := s.request_id + 1 }]
    ∧ (PyOut.state (send_jsonrpc_request env m p s)).session_id = s.session_id := by
  unfold send_jsonrpc_request start_server
  by_cases hp : s.process.isNone
  · simp only [hp, if_true, h, if_pos]
    refine ⟨?_, ?_, ?_⟩
    · rw [(send_core_state env m p _).1]; simp
    · rw [(send_core_state env m p _).2.1]; simp
    · rw [(send_core_state env m p _).2.2]; simp
  · simp only [hp, if_false]
    refine ⟨?_, ?_, ?_⟩
    · exact (send_core_state env m p s).1
    · exact (send_core_state env m p s).2.1
    · exact (send_core_state env m p s).2.2

/-- Over any call sequence, dispatching appends ids counting on from the
current counter value. -/
theorem dispatch_list_ids (env : Env) (h : env.startOk = true) :
    ∀ (calls : List (String × Json)) (s : ClientState),
      (dispatch_list env calls s).trace.map PyRequest.id
        = s.trace.map PyRequest.id ++ List.range' (s.request_id + 1) calls.length
      ∧ (dispatch_list env calls s).request_id = s.request_id + calls.length := by
  intro calls
  induction calls with
  | nil => intro s; simp [dispatch_list]
  | cons c rest ih =>
      intro s
      obtain ⟨m, p⟩ := c
      obtain ⟨h1, h2, _⟩ := send_dispatch env m p s h
      obtain ⟨ih1, ih2⟩ := ih (PyOut.state (send_jsonrpc_request env m p s))
      refine ⟨?_, ?_⟩
      · rw [dispatch_list, ih1, h1, h2]
        simp [List.range'_succ]
      · rw [dispatch_list, ih2, h1]
        simp
        omega

@[simp] theorem afterDispatch_stops (m : String) (p : Json) (s : ClientState) :
    (afterDispatch m p s).stops = s.stops := rfl

@[simp] theorem errCodeInt_errObj (m : String) (c : Int) :
    errCodeInt (errObj m c) = some c := rfl

@[simp] theorem errMsgOf_errObj (m : String) (c : Int) :
    errMsgOf (errObj m c) = some m := rfl

/-- A stub server on which every read times out. -/
def envT : Env :=
  { startOk := true, startStderr := "", outcome := fun _ => ReadOutcome.timeout }

/-! ### C6 — request ids are 1..N in order -/

/-- C6: for every client instance and every sequence of dispatched calls with
no intervening restart failure, the ids assigned to the first N dispatched
requests are exactly 1, 2, ..., N in that order — the counter starts at 1,
increases by one per dispatched request, and no id is ever reused. -/
theorem request_ids_are_one_to_N (env : Env) (calls : List (String × Json))
    (s : ClientState) (h1 : env.startOk = true) (h2 : s.request_id = 0)
    (h3 : s.trace = []) :
    (dispatch_list env calls s).trace.map PyRequest.id = List.range' 1 calls.length
    ∧ ((dispatch_list env calls s).trace.map PyRequest.id).Nodup := by
  obtain ⟨ha, _⟩ := dispatch_list_ids env h1 calls s
  rw [h2, h3] at ha
  simp only [List.map_nil, List.nil_append, Nat.zero_add] at ha
  exact ⟨ha, ha ▸ List.nodup_range' 1 calls.length⟩

/-- C6 witness: three concrete dispatches against the timeout stub get
ids 1, 2, 3. -/
theorem request_ids_witness :
    (dispatch_list envT [("createSession", Json.obj []), ("addMessage", Json.obj []),
        ("getCompletion", Json.obj [])] sFresh).trace.map PyRequest.id
      = List.range' 1 3
    ∧ ((dispatch_list envT [("createSession", Json.obj []), ("addMessage", Json.obj []),
        ("getCompletion", Json.obj [])] sFresh).trace.map PyRequest.id).Nodup :=
  request_ids_are_one_to_N envT
    [("createSession", Json.obj []), ("addMessage", Json.obj []),
     ("getCompletion", Json.obj [])] sFresh rfl rfl rfl

/-! ### C8 — with a running process, dispatch never raises -/

/-- C8: whenever the server process is already running, `send_jsonrpc_request`
returns a dict and never raises: timeout, pipe failure, unexpected exit, empty
line and unparseable JSON each become a returned dict with an `error` key
(code `-32700` for the parse failure, `-32000` otherwise), a server-reported
error object is re-wrapped under the client-synthesized code `-32000`, and a
clean response is returned as is. -/
theorem send_never_raises_when_running (env : Env) (method : String)
    (params : Json) (s : ClientState) (g : Nat) (hp : s.process = some g) :
    ∃ resp s2, send_jsonrpc_request env method params s = PyOut.ok resp s2
      ∧ (match env.outcome (s.request_id + 1) with
         | ReadOutcome.parsed r =>
             if (r.lookup? "error").isSome then errCodeInt resp = some (-32000)
             else resp = r
         | ReadOutcome.badJson _ => errCodeInt resp = some (-32700)
         | _ => errCodeInt resp = some (-32000)) := by
  rw [send_on_running env method params s g hp]
  obtain ⟨resp, s2, hok⟩ := send_core_isOk env method params s
  refine ⟨resp, s2, hok, ?_⟩
  cases ho : env.outcome (s.request_id + 1) with
  | parsed r =>
      cases he : r.lookup? "error" with
      | some e =>
          simp only [send_core, ho, he, PyOut.ok.injEq] at hok
          obtain ⟨h1, h2⟩ := hok
          subst h1
          simp [he]
      | none =>
          simp only [send_core, ho, he, PyOut.ok.injEq] at hok
          obtain ⟨h1, h2⟩ := hok
          subst h1
          simp [he]
  | timeout =>
      simp only [send_core, ho, PyOut.ok.injEq] at hok
      obtain ⟨h1, h2⟩ := hok
      subst h1
      simp
  | raised m2 =>
      simp only [send_core, ho, PyOut.ok.injEq] at hok
      obtain ⟨h1, h2⟩ := hok
      subst h1
      simp
  | exited st =>
      simp only [send_core, ho, PyOut.ok.injEq] at hok
      obtain ⟨h1, h2⟩ := hok
      subst h1
      simp
  | empty st =>
      simp only [send_core, ho, PyOut.ok.injEq] at hok
      obtain ⟨h1, h2⟩ := hok
      subst h1
      simp
  | badJson raw =>
      simp only [send_core, ho, PyOut.ok.injEq] at hok
      obtain ⟨h1, h2⟩ := hok
      subst h1
      simp

/-- C8 witness: against the always-timeout stub with a running process, the
dispatch returns a `-32000` error dict instead of raising. -/
theorem send_never_raises_witness :
    ∃ resp s2, send_jsonrpc_request envT "getCompletion" (Json.obj []) sReady
        = PyOut.ok resp s2
      ∧ errCodeInt resp = some (-32000) :=
  send_never_raises_when_running envT "getCompletion" (Json.obj []) sReady 0 rfl

/-! ### C2 — teardown on failure paths (corrected: parse failure keeps the process) -/

/-- C2 (amended): on a timeout, write/read failure, unexpected process exit or
empty response line, `send_jsonrpc_request` tears the server process down
(invoking `stop_server` exactly once) before returning, so the tracked handle
is empty afterwards — but NOT on a JSON parse failure (see the
counterexample). -/
theorem hard_failure_tears_down (env : Env) (method : String) (params : Json)
    (s : ClientState) (g : Nat) (hp : s.process = some g)
    (hf : isHardFailure (env.outcome (s.request_id + 1)) = true) :
    (PyOut.state (send_jsonrpc_request env method params s)).process = none
    ∧ (PyOut.state (send_jsonrpc_request env method params s)).stops = s.stops + 1 := by
  rw [send_on_running env method params s g hp]
  unfold send_core
  cases ho : env.outcome (s.request_id + 1) with
  | timeout => simp [PyOut.state]
  | raised m2 => simp [PyOut.state]
  | exited st => simp [PyOut.state]
  | empty st => simp [PyOut.state]
  | badJson raw => rw [ho] at hf; simp [isHardFailure] at hf
  | parsed r => rw [ho] at hf; simp [isHardFailure] at hf

/-- C2 witness: a concrete timeout tears the process down. -/
theorem hard_failure_witness :
    (PyOut.state (send_jsonrpc_request envT "addMessage" (Json.obj []) sReady)).process = none
    ∧ (PyOut.state (send_jsonrpc_request envT "addMessage" (Json.obj []) sReady)).stops = 1 :=
  hard_failure_tears_down envT "addMessage" (Json.obj []) sReady 0 rfl rfl

/-- C2 counterexample: when the response line fails JSON parsing, the client
returns the `-32700` error dict but never invokes `stop_server` — the tracked
process handle is still the old process, so the next call does NOT start a
fresh process. -/
theorem parse_failure_keeps_process :
    (PyOut.state (send_jsonrpc_request envBad "getCompletion" (Json.obj []) sReady)).process
      = some 0
    ∧ errCodeInt (respOf (send_jsonrpc_request envBad "getCompletion" (Json.obj []) sReady))
        = some (-32700)
    ∧ (PyOut.state (send_jsonrpc_request envBad "getCompletion" (Json.obj []) sReady)).stops
        = 0 :=
  ⟨rfl, rfl, rfl⟩

/-! ### C3 — server-reported errors (corrected: code is rewrapped to -32000) -/

/-- C3 (amended): when the server returns a well-formed response carrying an
`error` object with code `c` and message `m`, the dict handed back to the
caller embeds `m` (and `c`, rendered as text) in its error message, but its
error `code` field is always the client-synthesized `-32000`; no server code
is passed through, and the process is torn down. -/
theorem remote_error_rewrapped (env : Env) (method : String) (params : Json)
    (s : ClientState) (g : Nat) (resp e : Json) (c : Int) (msg : String)
    (hp : s.process = some g)
    (ho : env.outcome (s.request_id + 1) = ReadOutcome.parsed resp)
    (he : resp.lookup? "error" = some e)
    (hm : e.lookup? "message" = some (Json.str msg))
    (hc : e.lookup? "code" = some (Json.num c)) :
    ∃ s2, send_jsonrpc_request env method params s
        = PyOut.ok (errObj ("发送请求时出错: " ++ ("JSON-RPC错误: " ++ msg
            ++ " (代码: " ++ toString c ++ ")")) (-32000)) s2
      ∧ s2.process = none
      ∧ errCodeInt (respOf (send_jsonrpc_request env method params s)) = some (-32000)
      ∧ ∃ pre post,
          "发送请求时出错: " ++ ("JSON-RPC错误: " ++ msg ++ " (代码: " ++ toString c ++ ")")
            = pre ++ msg ++ post := by
  rw [send_on_running env method params s g hp]
  unfold send_core
  rw [ho]
  simp only [he, pyGet, hm, hc, pyStr]
  refine ⟨_, rfl, by simp [PyOut.state], by simp [respOf], ?_⟩
  refine ⟨"发送请求时出错: " ++ "JSON-RPC错误: ", " (代码: " ++ toString c ++ ")", ?_⟩
  simp only [String.append_assoc]

/-- C3 witness: server error code 42, message `boom`, concretely rewrapped. -/
theorem remote_error_witness :
    ∃ s2, send_jsonrpc_request envErr "addMessage" (Json.obj []) sReady
        = PyOut.ok (errObj ("发送请求时出错: " ++ ("JSON-RPC错误: " ++ "boom"
            ++ " (代码: " ++ toString (42 : Int) ++ ")")) (-32000)) s2
      ∧ s2.process = none
      ∧ errCodeInt (respOf (send_jsonrpc_request envErr "addMessage" (Json.obj []) sReady))
          = some (-32000)
      ∧ ∃ pre post,
          "发送请求时出错: " ++ ("JSON-RPC错误: " ++ "boom" ++ " (代码: "
            ++ toString (42 : Int) ++ ")") = pre ++ "boom" ++ post :=
  remote_error_rewrapped envErr "addMessage" (Json.obj []) sReady 0 respErr42
    (Json.obj [("code", Json.num 42), ("message", Json.str "boom")]) 42 "boom"
    rfl rfl rfl rfl rfl

/-- C3 counterexample: with server code 42 the caller receives code `-32000`,
not 42 — codes other than `-32700`/`-32000` are NOT passed through verbatim
(the message text does still contain the server's message). -/
theorem server_error_code_not_verbatim :
    errCodeInt (respOf (send_jsonrpc_request envErr "addMessage" (Json.obj []) sReady))
      = some (-32000)
    ∧ errCodeInt (respOf (send_jsonrpc_request envErr "addMessage" (Json.obj []) sReady))
        ≠ some 42
    ∧ errMsgOf (respOf (send_jsonrpc_request envErr "addMessage" (Json.obj []) sReady))
        = some "发送请求时出错: JSON-RPC错误: boom (代码: 42)" :=
  ⟨rfl, by decide, rfl⟩

/-! ### C10 — stop_server is total, idempotent, and clears the handles -/

/-- C10: `stop_server` never raises (even when terminating or killing the
child raises — `b` says whether it does), the resulting state does not depend
on that, calling it with no tracked process is a no-op on the program-visible
state, calling it twice is observationally the same as calling it once, and it
leaves the process handle — and, from any state reachable by the client (where
a drain thread exists only alongside a process), the stderr-thread handle —
cleared. -/
theorem stop_server_total_and_idempotent (b : Bool) (s : ClientState) :
    (stop_server_impl b s).1 = Except.ok ()
    ∧ (stop_server_impl b s).2 = stop_server s
    ∧ (s.process = none → (stop_server s).obs = s.obs)
    ∧ (stop_server (stop_server s)).obs = (stop_server s).obs
    ∧ (stop_server s).process = none
    ∧ ((s.process = none → s.stderr_thread = none) → (stop_server s).stderr_thread = none) := by
  refine ⟨?_, stop_server_impl_snd b s, ?_, ?_, stop_server_process s, ?_⟩
  · cases hp : s.process <;> cases b <;>
      simp [stop_server_impl, tryCatchFinally, terminate_kill, hp]
  · intro h
    rw [stop_server_eq]
    simp [h, ClientState.obs]
  · rw [stop_server_eq (stop_server s)]
    simp [ClientState.obs]
  · intro h
    rw [stop_server_eq]
    cases hp : s.process with
    | none => simp [hp, h hp]
    | some g => simp [hp]

/-- C10 witness: on a fresh client (no process tracked) `stop_server` returns
normally even if terminate would raise, is a no-op, and leaves both handles
clear. -/
theorem stop_server_witness :
    (stop_server_impl true sFresh).1 = Except.ok ()
    ∧ (stop_server sFresh).obs = sFresh.obs
    ∧ (stop_server sFresh).stderr_thread = none :=
  ⟨(stop_server_total_and_idempotent true sFresh).1,
   (stop_server_total_and_idempotent true sFresh).2.2.1 rfl,
   (stop_server_total_and_idempotent true sFresh).2.2.2.2.2 (fun _ => rfl)⟩

/-! ### More dispatch lemmas -/

/-- A cleanly parsed response without an `error` key is returned as is, with
just the dispatch recorded. -/
theorem send_core_clean (env : Env) (m : String) (p : Json) (s : ClientState)
    (resp : Json) (ho : env.outcome (s.request_id + 1) = ReadOutcome.parsed resp)
    (he : resp.lookup? "error" = none) :
    send_core env m p s = PyOut.ok resp (afterDispatch m p s) := by
  simp only [send_core, ho, he]

/-- With a truthy cached session, `add_message` skips `createSession` and its
final state is exactly the state of its single `addMessage` dispatch. -/
theorem add_message_state_truthy (env : Env) (content : String) (s : ClientState)
    (hs : sessionTruthy s = true) :
    PyOut.state (add_message env content s)
      = PyOut.state (send_jsonrpc_request env "addMessage"
          (addMessageParams s.session_id content) s) := by
  unfold add_message ensure_session
  simp only [hs, if_true]
  cases hsend : send_jsonrpc_request env "addMessage" (addMessageParams s.session_id content) s with
  | ok r s2 =>
      simp only [PyOut.state]
      split <;> rename_i heq <;> split at heq <;> cases heq <;> rfl
  | exc m s2 => rfl

/-- With a truthy cached session, `call_tool` skips `createSession` and its
final state is exactly the state of its single `callTool` dispatch. -/
theorem call_tool_state_truthy (env : Env) (nm args : Json) (s : ClientState)
    (hs : sessionTruthy s = true) :
    PyOut.state (call_tool env nm args s)
      = PyOut.state (send_jsonrpc_request env "callTool"
          (callToolParams s.session_id nm args) s) := by
  unfold call_tool ensure_session
  simp only [hs, if_true]
  cases hsend : send_jsonrpc_request env "callTool" (callToolParams s.session_id nm args) s with
  | ok r s2 =>
      simp only [PyOut.state]
      split <;> rename_i heq <;> split at heq <;> cases heq <;> rfl
  | exc m s2 => rfl

/-! ### C5 — query_weather never throws and stops exactly once -/

/-- C5: whenever `query_weather` terminates, for every input query and every
behaviour of the underlying calls, it returns normally (never propagates an
exception), its final state is the body's final state with `stop_server`
applied exactly once more than the body itself did, and a raised error is
turned into the descriptive failure string that is returned. -/
theorem query_weather_stops_once (env : Env) (fuel : Nat) (query : String)
    (s : ClientState) (out : PyOut Json)
    (h : query_weather env fuel query s = some out) :
    ∃ r s2 b, out = PyOut.ok r s2
      ∧ query_weather_body env fuel query s = some b
      ∧ s2 = stop_server (PyOut.state b)
      ∧ s2.stops = (PyOut.state b).stops + 1
      ∧ (∀ m sb, b = PyOut.exc m sb → r = Json.str ("查询天气时出错: " ++ m)) := by
  unfold query_weather at h
  cases hb : query_weather_body env fuel query s with
  | none => rw [hb] at h; cases h
  | some b =>
      rw [hb] at h
      cases b with
      | ok r2 sb =>
          simp only [Option.some.injEq] at h
          subst h
          refine ⟨r2, stop_server sb, PyOut.ok r2 sb, rfl, rfl, rfl, ?_, ?_⟩
          · simp [PyOut.state]
          · intro m sb2 hcontra
            cases hcontra
      | exc m sb =>
          simp only [Option.some.injEq] at h
          subst h
          refine ⟨Json.str ("查询天气时出错: " ++ m), stop_server sb,
            PyOut.exc m sb, rfl, rfl, rfl, ?_, ?_⟩
          · simp [PyOut.state]
          · intro m2 sb2 hcontra
            cases hcontra
            rfl

/-- An `addMessage`-then-`getCompletion` happy-path stub: message id `m1`,
then a completion with final content. -/
def contentResp : Json :=
  Json.obj [("result", Json.obj [("completion", Json.obj [("content", Json.str "晴天")])])]

/-- Stub answering the first request with `msgResp` and later ones with
`contentResp`. -/
def envHappy : Env :=
  { startOk := true, startStderr := "",
    outcome := fun n => if n == 1 then ReadOutcome.parsed msgResp
                        else ReadOutcome.parsed contentResp }

/-- The concrete terminating `query_weather` run used as witness. -/
def qwOut : PyOut Json :=
  (query_weather envHappy 3 "今天天气" sReady).getD (PyOut.exc "unreachable" sReady)

/-- C5 witness: a concrete happy-path run returns normally with teardown
applied once after the body. -/
theorem query_weather_stops_once_witness :
    ∃ r s2 b, qwOut = PyOut.ok r s2
      ∧ query_weather_body envHappy 3 "今天天气" sReady = some b
      ∧ s2 = stop_server (PyOut.state b)
      ∧ s2.stops = (PyOut.state b).stops + 1
      ∧ (∀ m sb, b = PyOut.exc m sb → r = Json.str ("查询天气时出错: " ++ m)) :=
  query_weather_stops_once envHappy 3 "今天天气" sReady qwOut rfl

/-! ### C7 — createSession caches the session id -/

/-- C7: if `createSession` receives a success response whose result carries
session id `abc`, the client caches `abc`; afterwards a session-requiring
operation (`add_message`, `call_tool`) dispatches exactly one request — no
further `createSession` — and the `addMessage` params embed session id `abc`. -/
theorem create_session_caches_abc (env : Env) (s : ClientState) (g : Nat)
    (resp : Json) (hp : s.process = some g)
    (ho : env.outcome (s.request_id + 1) = ReadOutcome.parsed resp)
    (he : resp.lookup? "error" = none)
    (hsid : (resp.lookup? "result").bind (fun r => r.lookup? "sessionId")
        = some (Json.str "abc")) :
    ∃ s1, create_session env s = PyOut.ok (Json.str "abc") s1
      ∧ s1.session_id = some (Json.str "abc")
      ∧ s1.process = some g
      ∧ (∀ content, (PyOut.state (add_message env content s1)).trace
            = s1.trace ++ [mkReq "addMessage"
                (addMessageParams (some (Json.str "abc")) content) (s.request_id + 2)])
      ∧ (∀ nm args, (PyOut.state (call_tool env nm args s1)).trace
            = s1.trace ++ [mkReq "callTool"
                (callToolParams (some (Json.str "abc")) nm args) (s.request_id + 2)]) := by
  have hsend : send_jsonrpc_request env "createSession" (Json.obj []) s
      = PyOut.ok resp (afterDispatch "createSession" (Json.obj []) s) := by
    rw [send_on_running env "createSession" (Json.obj []) s g hp]
    exact send_core_clean env "createSession" (Json.obj []) s resp ho he
  refine ⟨{ afterDispatch "createSession" (Json.obj []) s with
            session_id := some (Json.str "abc") }, ?_, rfl, ?_, ?_, ?_⟩
  · unfold create_session
    rw [hsend]
    simp only [hsid]
  · simp [afterDispatch, hp]
  · intro content
    have hs1 : sessionTruthy { afterDispatch "createSession" (Json.obj []) s with
        session_id := some (Json.str "abc") } = true := by
      simp [sessionTruthy, Json.isTruthy]
    rw [add_message_state_truthy env content _ hs1]
    obtain ⟨_, htr, _⟩ := send_core_state env "addMessage"
      (addMessageParams (some (Json.str "abc")) content)
      { afterDispatch "createSession" (Json.obj []) s with
        session_id := some (Json.str "abc") }
    rw [send_on_running env "addMessage" _ _ g (by simp [afterDispatch, hp])]
    rw [htr]
    simp [afterDispatch, mkReq]
  · intro nm args
    have hs1 : sessionTruthy { afterDispatch "createSession" (Json.obj []) s with
        session_id := some (Json.str "abc") } = true := by
      simp [sessionTruthy, Json.isTruthy]
    rw [call_tool_state_truthy env nm args _ hs1]
    obtain ⟨_, htr, _⟩ := send_core_state env "callTool"
      (callToolParams (some (Json.str "abc")) nm args)
      { afterDispatch "createSession" (Json.obj []) s with
        session_id := some (Json.str "abc") }
    rw [send_on_running env "callTool" _ _ g (by simp [afterDispatch, hp])]
    rw [htr]
    simp [afterDispatch, mkReq]

/-- C7 witness: against the concrete stub answering `createSession` with
session id `abc`, the cache and the subsequent `addMessage` params are as
claimed. -/
theorem create_session_caches_witness :
    ∃ s1, create_session envC4 sReady = PyOut.ok (Json.str "abc") s1
      ∧ s1.session_id = some (Json.str "abc")
      ∧ s1.process = some 0
      ∧ (∀ content, (PyOut.state (add_message envC4 content s1)).trace
            = s1.trace ++ [mkReq "addMessage"
                (addMessageParams (some (Json.str "abc")) content) (sReady.request_id + 2)])
      ∧ (∀ nm args, (PyOut.state (call_tool envC4 nm args s1)).trace
            = s1.trace ++ [mkReq "callTool"
                (callToolParams (some (Json.str "abc")) nm args) (sReady.request_id + 2)]) :=
  create_session_caches_abc envC4 sReady 0 sessResp rfl rfl rfl rfl

/-! ### C9 — a falsy toolCall is treated like a missing one -/

/-- C9: if the completion carries a `toolCall` key whose value is falsy
(`null`, `{}`, ...) — or no `toolCall` key at all — `get_completion` invokes
no tool and dispatches no further `getCompletion`: its final state records
exactly the one dispatch, and it returns `completion["content"]`, or the
`"无内容"` marker when `content` is absent, by the same formula in both
cases. -/
theorem falsy_toolCall_ignored (env : Env) (s : ClientState) (g : Nat)
    (fuel : Nat) (mid resp comp : Json)
    (hp : s.process = some g) (hs : sessionTruthy s = true)
    (ho : env.outcome (s.request_id + 1) = ReadOutcome.parsed resp)
    (he : resp.lookup? "error" = none)
    (hc : (resp.lookup? "result").bind (fun r => r.lookup? "completion") = some comp)
    (ht : comp.lookup? "toolCall" = none
          ∨ ∃ v, comp.lookup? "toolCall" = some v ∧ v.isTruthy = false) :
    get_completion env (fuel + 1) mid s
      = some (PyOut.ok (pyGet comp "content" (Json.str "无内容"))
          (afterDispatch "getCompletion" (getCompletionParams s.session_id mid) s)) := by
  have hsend : send_jsonrpc_request env "getCompletion"
      (getCompletionParams s.session_id mid) s
      = PyOut.ok resp (afterDispatch "getCompletion" (getCompletionParams s.session_id mid) s) := by
    rw [send_on_running env "getCompletion" (getCompletionParams s.session_id mid) s g hp]
    exact send_core_clean env "getCompletion" (getCompletionParams s.session_id mid) s resp ho he
  unfold get_completion ensure_session
  simp only [hs, if_true, hsend, hc]
  rcases ht with htc | ⟨v, htc, hv⟩
  · simp only [htc]
  · simp only [htc, hv, Bool.false_eq_true, if_false]

/-- A completion whose `toolCall` is present but `null`, alongside content. -/
def comp9 : Json := Json.obj [("toolCall", Json.null), ("content", Json.str "晴")]

/-- A `getCompletion` response around `comp9`. -/
def resp9 : Json := Json.obj [("result", Json.obj [("completion", comp9)])]

/-- Stub answering every request with `resp9`. -/
def env9 : Env :=
  { startOk := true, startStderr := "", outcome := fun _ => ReadOutcome.parsed resp9 }

/-- C9 witness: a concrete null `toolCall` is ignored and the content is
returned after a single dispatch. -/
theorem falsy_toolCall_witness :
    get_completion env9 1 (Json.str "m1") sReady
      = some (PyOut.ok (pyGet comp9 "content" (Json.str "无内容"))
          (afterDispatch "getCompletion"
            (getCompletionParams sReady.session_id (Json.str "m1")) sReady)) :=
  falsy_toolCall_ignored env9 sReady 0 0 (Json.str "m1") resp9 comp9
    rfl rfl rfl rfl rfl (Or.inr ⟨Json.null, rfl, rfl⟩)

/-! ### C4 — session id is NOT invalidated by stop_server (corrected) -/

/-- The state after a successful `createSession` against `envC4` from a fresh
client: process generation 0 running, session id `abc` cached. -/
def sC4a : ClientState := PyOut.state (create_session envC4 sFresh)

/-- `sC4a` after `stop_server`: no process, but the session id survives. -/
def sC4b : ClientState := stop_server sC4a

/-- An `add_message` run against the stopped client: it starts a NEW process
(generation 1) and reuses the OLD session id without any `createSession`. -/
def c4out : PyOut Json := add_message envC4 "北京天气" sC4b

/-- C4 counterexample: after `stop_server`, the cached session id `abc` is NOT
invalidated — the very next `add_message` starts a new process (generation 1,
the old one was generation 0), dispatches no second `createSession`, and sends
the old session id `abc` to the new process. -/
theorem session_survives_stop :
    sC4a.session_id = some (Json.str "abc")
    ∧ sC4a.process = some 0
    ∧ sC4b.process = none
    ∧ sC4b.session_id = some (Json.str "abc")
    ∧ (PyOut.state c4out).process = some 1
    ∧ (PyOut.state c4out).trace.map PyRequest.method = ["createSession", "addMessage"]
    ∧ ((PyOut.state c4out).trace.map PyRequest.params).getLast?
        = some (addMessageParams (some (Json.str "abc")) "北京天气") :=
  ⟨rfl, rfl, rfl, rfl, rfl, rfl, rfl⟩

/-- C4 (amended): `stop_server` clears the process handle but does NOT clear
the cached session id; as long as the cached id stays truthy, a subsequent
`add_message` dispatches no `createSession` — it performs exactly one
`addMessage` dispatch that reuses the old session id against whatever process
the restart produced. -/
theorem stop_does_not_invalidate_session (env : Env) (content : String)
    (s : ClientState) (h1 : env.startOk = true) (h2 : sessionTruthy s = true) :
    (stop_server s).session_id = s.session_id
    ∧ (stop_server s).process = none
    ∧ (PyOut.state (add_message env content (stop_server s))).trace
        = s.trace ++ [mkReq "addMessage" (addMessageParams s.session_id content)
            (s.request_id + 1)] := by
  refine ⟨stop_server_session s, stop_server_process s, ?_⟩
  rw [add_message_state_truthy env content (stop_server s) (by simp [h2])]
  obtain ⟨_, htr, _⟩ := send_dispatch env "addMessage"
    (addMessageParams (stop_server s).session_id content) (stop_server s) h1
  rw [htr]
  simp [mkReq]

/-- C4 witness: concretely, stopping a ready client keeps its session id and
the next `add_message` reuses it in its single dispatched request. -/
theorem stop_does_not_invalidate_witness :
    (stop_server sReady).session_id = sReady.session_id
    ∧ (stop_server sReady).process = none
    ∧ (PyOut.state (add_message envC4 "hi" (stop_server sReady))).trace
        = sReady.trace ++ [mkReq "addMessage"
            (addMessageParams sReady.session_id "hi") (sReady.request_id + 1)] :=
  stop_does_not_invalidate_session envC4 "hi" sReady rfl rfl

/-! ### C1 — the tool-call loop is NOT bounded (corrected) -/

/-- Reductions of the constant tool-call response. -/
theorem respStar_no_error : respStar.lookup? "error" = none := rfl

theorem objCompStar_completion :
    (Json.obj [("completion", compStar)]).lookup? "completion" = some compStar := rfl

theorem respStar_result :
    respStar.lookup? "result" = some (Json.obj [("completion", compStar)]) := rfl

theorem compStar_tc : compStar.lookup? "toolCall" = some tcStar := rfl

theorem tcStar_truthy : tcStar.isTruthy = true := rfl

theorem tcStar_name : tcStar.lookup? "name" = some (Json.str "get_weather") := rfl

theorem tcStar_args :
    tcStar.lookup? "arguments" = some (Json.obj [("city", Json.str "北京")]) := rfl

/-- One unrolling of `get_completion` against `envLoop`: the completion always
carries a truthy tool call, so the call invokes the tool (one `callTool`
dispatch) and recurses on the same message id. -/
theorem envLoop_step (s : ClientState) (g : Nat) (hp : s.process = some g)
    (hs : sessionTruthy s = true) (fuel : Nat) :
    get_completion envLoop (fuel + 1) (Json.str "m1") s
      = get_completion envLoop fuel (Json.str "m1")
          (afterDispatch "callTool"
            (callToolParams s.session_id (Json.str "get_weather")
              (Json.obj [("city", Json.str "北京")]))
            (afterDispatch "getCompletion"
              (getCompletionParams s.session_id (Json.str "m1")) s)) := by
  have hsend : send_jsonrpc_request envLoop "getCompletion"
      (getCompletionParams s.session_id (Json.str "m1")) s
      = PyOut.ok respStar (afterDispatch "getCompletion"
          (getCompletionParams s.session_id (Json.str "m1")) s) := by
    rw [send_on_running envLoop "getCompletion"
      (getCompletionParams s.session_id (Json.str "m1")) s g hp]
    exact send_core_clean envLoop "getCompletion"
      (getCompletionParams s.session_id (Json.str "m1")) s respStar rfl rfl
  have hsend2 : send_jsonrpc_request envLoop "callTool"
      (callToolParams s.session_id (Json.str "get_weather")
        (Json.obj [("city", Json.str "北京")]))
      (afterDispatch "getCompletion" (getCompletionParams s.session_id (Json.str "m1")) s)
      = PyOut.ok respStar (afterDispatch "callTool"
          (callToolParams s.session_id (Json.str "get_weather")
            (Json.obj [("city", Json.str "北京")]))
          (afterDispatch "getCompletion"
            (getCompletionParams s.session_id (Json.str "m1")) s)) := by
    rw [send_on_running envLoop "callTool" _ _ g (by simp [afterDispatch, hp])]
    exact send_core_clean envLoop "callTool" _ _ respStar rfl rfl
  simp only [get_completion]
  unfold call_tool ensure_session
  simp only [hs, if_true, hsend, respStar_result, Option.some_bind,
    objCompStar_completion, compStar_tc, tcStar_truthy, eq_self_iff_true,
    tcStar_name, tcStar_args, sessionTruthy_afterDispatch,
    afterDispatch_session, hsend2]

/-- Against the always-toolCall stub, `get_completion` neither returns nor
raises at ANY recursion depth: there is no iteration counter and no
`ToolLoopExceeded` in the client. -/
theorem envLoop_never_returns : ∀ (fuel : Nat) (s : ClientState) (g : Nat),
    s.process = some g → sessionTruthy s = true →
    get_completion envLoop fuel (Json.str "m1") s = none := by
  intro fuel
  induction fuel with
  | zero => intro s g hp hs; rfl
  | succ n ih =>
      intro s g hp hs
      rw [envLoop_step s g hp hs n]
      exact ih _ g (by simp [hp]) (by simp [hs])

/-- C1 counterexample: with the stub server whose every completion carries a
tool call, `get_completion` granted 11 or 12 nested iterations has neither
returned nor raised — so it does NOT fail with any `ToolLoopExceeded` after
exactly 10 iterations; it simply keeps recursing past the claimed bound. -/
theorem tool_loop_unbounded_counterexample :
    get_completion envLoop 12 (Json.str "m1") sReady = none
    ∧ get_completion envLoop 11 (Json.str "m1") sReady = none :=
  ⟨envLoop_never_returns 12 sReady 0 rfl rfl,
   envLoop_never_returns 11 sReady 0 rfl rfl⟩

/-- C1 (amended): `get_completion` maintains no iteration counter and never
fails with `ToolLoopExceeded`; against a server that answers every
`getCompletion` with a completion carrying a tool call, it recurses without
bound — at every finite recursion depth it has neither returned nor raised. -/
theorem tool_loop_unbounded (fuel : Nat) (s : ClientState) (g : Nat)
    (hp : s.process = some g) (hs : sessionTruthy s = true) :
    get_completion envLoop fuel (Json.str "m1") s = none :=
  envLoop_never_returns fuel s g hp hs

/-- C1 witness: the unbounded-recursion theorem at a concrete ready client
and depth 3. -/
theorem tool_loop_unbounded_witness :
    get_completion envLoop 3 (Json.str "m1") sReady = none :=
  tool_loop_unbounded 3 sReady 0 rfl rfl

end MCP
